import Mathlib

/-!
Verification development for the mini-gfx-framework rendering sandbox.

The TypeScript sources are shallowly embedded: each class or function that
the specification talks about is translated into an executable Lean
definition, and the specification's sentences are settled as theorems about
those definitions.  Asynchronous effects (disposal callbacks, mount
promises, readback continuations) are modelled by explicit state passing
and event traces; resource identity (GPU textures, cleanup closures) is
modelled by natural-number identifiers handed out by counters.
-/

namespace MiniGfx

/-! ## ResourceRegistry (src/core/resourceRegistry.ts)

A disposal callback is modelled by an identifier (so invocations can be
traced) together with whether invoking it throws.  `TrackedResource`
mirrors the TypeScript interface: an id, an opaque resource payload, an
optional label and an optional disposal callback. -/

structure DisposeCallback where
  cid : Nat
  throws : Bool
deriving DecidableEq, Repr

structure TrackedResource (α : Type) where
  id : String
  resource : α
  label : Option String := none
  dispose : Option DisposeCallback := none
deriving DecidableEq, Repr

/-- The backing `Map` of `InMemoryResourceRegistry`, as an insertion-ordered
association list (JavaScript `Map` iterates in insertion order, and
`set` on an existing key keeps the original position). -/
abbrev Registry (α : Type) := List (TrackedResource α)

namespace Registry

/-- Mirror of `this.map.set(entry.id, entry)`: overwrite in place when
the id is present (keeping its insertion position), append otherwise. -/
def add {α} (reg : Registry α) (e : TrackedResource α) : Registry α :=
  if reg.any (fun x => x.id = e.id) then
    reg.map (fun x => if x.id = e.id then e else x)
  else
    reg ++ [e]

/-- Mirror of `this.map.get(id)?.resource`. -/
def get {α} (reg : Registry α) (i : String) : Option α :=
  (reg.find? (fun x => x.id = i)).map (fun x => x.resource)

/-- Mirror of `Array.from(this.map.values())` (a snapshot). -/
def list {α} (reg : Registry α) : List (TrackedResource α) := reg

/-- The callback ids of the entries that carry a disposal callback, in
insertion order. -/
def disposalOrder {α} (reg : Registry α) : List Nat :=
  reg.filterMap (fun e => e.dispose.map (fun cb => cb.cid))

/-- One pass of the `for (const entry of this.map.values()) await
entry.dispose?.();` loop: returns the trace of callback ids invoked and
whether some callback threw (aborting the loop). -/
def runDisposals {α} : Registry α → List Nat × Bool
  | [] => ([], false)
  | e :: rest =>
    match e.dispose with
    | none => runDisposals rest
    | some cb =>
      if cb.throws then ([cb.cid], true)
      else
        let r := runDisposals rest
        (cb.cid :: r.1, r.2)

/-- Mirror of `async disposeAll()`: run the disposal loop; if a
callback threw, the exception propagates and `this.map.clear()` never
runs (the table is left as it was); otherwise the table is cleared.
Returns (invocation trace, whether it threw, the table afterwards). -/
def disposeAll {α} (reg : Registry α) : List Nat × Bool × Registry α :=
  let r := runDisposals reg
  (r.1, r.2, if r.2 then reg else [])

end Registry

/-! ## CanvasSurfaceManager (transfer-log.md, `CanvasSurfaceManager`)

The browser environment a `resize()` call observes: the current
`window.devicePixelRatio` and the client-measured size of each canvas
(keyed by canvas identity).  Logical sizes and the device-pixel-ratio are
rationals (JavaScript numbers used here only through `Math.floor` and
multiplication, which are exact on the values of interest). -/

structure SurfaceEnv where
  devicePixelRatio : ℚ
  clientSize : Nat → ℚ × ℚ

/-- Mirror of `SurfaceManagerConfig`: device and canvas are identities,
formats are the WebGPU format strings, and `sizeProvider` is an optional
function consulted at each resize. -/
structure SurfaceManagerConfig where
  device : Nat
  canvas : Nat
  format : Option String := none
  depthFormat : Option String := none
  sizeProvider : Option (SurfaceEnv → ℚ × ℚ) := none
  alphaMode : Option String := none

structure FrameSize where
  width : Int
  height : Int
  devicePixelRatio : ℚ
deriving DecidableEq, Repr

/-- Mirror of the `navigator.gpu.getPreferredCanvasFormat()` constant. -/
def preferredCanvasFormat : String := "preferred-canvas-format"

/-- Mirror of the private state of `CanvasSurfaceManager`.  GPU textures
are identified by numbers drawn from `nextTextureId`; `destroyed` records
every texture on which `destroy()` was called, and `canvasWidth` /
`canvasHeight` are the backing `canvas.width` / `canvas.height`
attributes assigned by `resize()`. -/
structure CanvasSurfaceManager where
  config : Option SurfaceManagerConfig := none
  context : Option Nat := none
  depthTexture : Option Nat := none
  currentSize : Option FrameSize := none
  internalFormat : String := preferredCanvasFormat
  internalDepthFormat : Option String := none
  nextTextureId : Nat := 0
  destroyed : List Nat := []
  canvasWidth : Int := 0
  canvasHeight : Int := 0

namespace CanvasSurfaceManager

/-- The logical size `resize()` works from: `sizeProvider?.()` when
supplied, else the canvas's `clientWidth` / `clientHeight`. -/
def logicalSize (cfg : SurfaceManagerConfig) (env : SurfaceEnv) : ℚ × ℚ :=
  match cfg.sizeProvider with
  | some provider => provider env
  | none => env.clientSize cfg.canvas

/-- Mirror of `resize()`: no-op unless configured; computes
`Math.max(1, Math.floor(logical * dpr))` per axis with
`dpr = window.devicePixelRatio || 1`; reassigns the canvas backing size;
reconfigures the context with the unchanged `internalFormat`; and, when a
depth format is configured, destroys any previous depth texture and
allocates a fresh one unconditionally.  Finally records `currentSize`. -/
def resize (s : CanvasSurfaceManager) (env : SurfaceEnv) : CanvasSurfaceManager :=
  match s.config, s.context with
  | some cfg, some _ =>
    let dpr : ℚ := if env.devicePixelRatio = 0 then 1 else env.devicePixelRatio
    let logical := logicalSize cfg env
    let width : Int := max 1 ⌊logical.1 * dpr⌋
    let height : Int := max 1 ⌊logical.2 * dpr⌋
    let s1 := { s with canvasWidth := width, canvasHeight := height }
    let s2 :=
      match s1.internalDepthFormat with
      | some _ =>
        { s1 with
          destroyed := s1.destroyed ++ s1.depthTexture.toList
          depthTexture := some s1.nextTextureId
          nextTextureId := s1.nextTextureId + 1 }
      | none => s1
    { s2 with currentSize := some ⟨width, height, dpr⟩ }
  | _, _ => s

/-- Mirror of `configure(config)`: record the config, acquire the canvas
context, fix the presentation format (falling back to the preferred
canvas format) and the depth format, then perform the initial resize. -/
def configure (s : CanvasSurfaceManager) (cfg : SurfaceManagerConfig)
    (env : SurfaceEnv) : CanvasSurfaceManager :=
  resize
    { s with
      config := some cfg
      context := some cfg.canvas
      internalFormat := cfg.format.getD preferredCanvasFormat
      internalDepthFormat := cfg.depthFormat }
    env

/-- Mirror of `acquireFrame()`: throws unless configured with a current
size; otherwise returns the presentation format, the current depth view
(the depth texture identity) and the current size. -/
def acquireFrame (s : CanvasSurfaceManager) :
    Except String (String × Option Nat × FrameSize) :=
  match s.config, s.context, s.currentSize with
  | some _, some _, some size =>
    Except.ok (s.internalFormat, s.depthTexture, size)
  | _, _, _ => Except.error "Surface not configured."

/-- Mirror of `dispose()`: destroy any depth texture and clear all state. -/
def dispose (s : CanvasSurfaceManager) : CanvasSurfaceManager :=
  { s with
    destroyed := s.destroyed ++ s.depthTexture.toList
    depthTexture := none
    context := none
    config := none
    currentSize := none }

/-- Texture-identity sanity: every texture id the manager holds was drawn
from the `nextTextureId` counter, so it is below the counter. -/
def wellAllocated (s : CanvasSurfaceManager) : Prop :=
  ∀ t, s.depthTexture = some t → t < s.nextTextureId

end CanvasSurfaceManager

/-! ## DeviceHost (src/kernel/deviceHost.ts)

`defaultDeviceHostFactory.init` is modelled as a function of the GPU
environment (whether the WebGPU API is present, whether an adapter is
returned, whether the device request rejects).  Errors reported through
the `onError` option are collected in a trace so "reported exactly once"
is a statement about lists. -/

structure GpuEnvModel where
  gpuAvailable : Bool
  adapterAvailable : Bool
  deviceRequestFails : Bool
deriving DecidableEq, Repr

inductive InitError
  | webgpuUnavailable
  | adapterUnavailable
  | deviceRequestFailed
deriving DecidableEq, Repr

/-- Mirror of `DeviceHostOptions`; callbacks and GPU descriptors that the
modelled control flow only passes through are reduced to what that flow
inspects: whether `onError` was supplied, the canvas identity, and the
surface configuration forwarded by `configureSurface`. -/
structure DeviceHostOptions where
  canvas : Option Nat := none
  onErrorProvided : Bool := false
  surfaceFormat : Option String := none
  surfaceDepthFormat : Option String := none
  surfaceSizeProvider : Option (SurfaceEnv → ℚ × ℚ) := none

/-- The handle `init` resolves with; `deviceId` stands for the acquired
`GPUDevice`, and the options are captured by the closure just as the
TypeScript `host` object captures `options`. -/
structure DeviceHostHandle where
  deviceId : Nat
  options : DeviceHostOptions

namespace DeviceHost

/-- Mirror of `defaultDeviceHostFactory.init`: check for the API, request
an adapter, then inside a try/catch request the device.  Returns the list
of errors delivered to `onError` alongside the thrown-or-resolved result.
The two adapter-stage failures are thrown before the try block, so the
catch branch (which is the only place `onError` is invoked for
acquisition failures) never sees them. -/
def init (env : GpuEnvModel) (options : DeviceHostOptions) :
    List InitError × Except InitError DeviceHostHandle :=
  if ¬env.gpuAvailable then
    ([], Except.error InitError.webgpuUnavailable)
  else if ¬env.adapterAvailable then
    ([], Except.error InitError.adapterUnavailable)
  else if env.deviceRequestFails then
    ((if options.onErrorProvided then [InitError.deviceRequestFailed] else []),
      Except.error InitError.deviceRequestFailed)
  else
    ([], Except.ok { deviceId := 0, options })

/-- Mirror of `host.configureSurface(surface)`: throws when
`options.canvas` was not supplied at init time, else calls
`surface.configure` with the device, the canvas, and the surface options
captured at init. -/
def configureSurface (host : DeviceHostHandle) (surface : CanvasSurfaceManager)
    (env : SurfaceEnv) : Except String CanvasSurfaceManager :=
  match host.options.canvas with
  | none =>
    Except.error "DeviceHost options.canvas is required to configure a surface."
  | some canvas =>
    Except.ok (surface.configure
      { device := host.deviceId
        canvas := canvas
        format := host.options.surfaceFormat
        depthFormat := host.options.surfaceDepthFormat
        sizeProvider := host.options.surfaceSizeProvider }
      env)

end DeviceHost

/-! ## Scene Host / Selector (sandbox main module, `activateScene`)

Two views of the same source function.

`activateSceneOnce` is the straight-line functional model of one
non-overlapping `activateScene(id)` call: id resolution with fallback to
the default scene, token stamping, `cleanupActiveScene`, then the mount
outcome (a cleanup identity on success, a rejection on failure) handled
by the install-or-discard branch and the catch branch.

`Selector.step` is the interleaving model for overlapping calls: the
single-threaded event loop runs each call synchronously up to its `await
scene.mount(...)` suspension (event `Ev.call`), and later resumes the
continuation when that mount promise settles (events `Ev.resolveOk` /
`Ev.resolveErr`), in any order the scheduler chooses. -/

structure SceneDef where
  id : String
deriving DecidableEq, Repr

/-- Mirror of `getSceneById` from the scene registry module. -/
def getSceneById (scenes : List SceneDef) (i : String) : Option SceneDef :=
  scenes.find? (fun s => s.id = i)

/-- Mutable module state of the sandbox main module, plus observation
traces: `cleanupsRun` records every cleanup closure (by identity) that was
invoked, `rootScene` is the content of the `scene-root` element, and
`consoleErrors` records `console.error` diagnostics (by scene id). -/
structure HostState where
  mountToken : Nat := 0
  activeCleanup : Option Nat := none
  activeSceneId : String := ""
  rootScene : Option String := none
  consoleErrors : List String := []
  cleanupsRun : List Nat := []
deriving DecidableEq, Repr

/-- Mirror of one complete `activateScene(id)` call with no overlapping
activation: `mountOutcome` gives, per scene id, either the cleanup
identity its `mount` resolves with or a rejection. -/
def activateSceneOnce (scenes : List SceneDef) (defaultId : String)
    (mountOutcome : String → Except Unit Nat) (st : HostState) (i : String) :
    Except String HostState :=
  let resolved :=
    match getSceneById scenes i with
    | some s => some s
    | none => getSceneById scenes defaultId
  match resolved with
  | none => Except.error "Unable to resolve scene for id"
  | some scene =>
    let token := st.mountToken + 1
    let st1 := { st with mountToken := token }
    let st2 :=
      { st1 with
        activeCleanup := none
        cleanupsRun := st1.cleanupsRun ++ st1.activeCleanup.toList
        rootScene := none }
    let st3 := { st2 with activeSceneId := scene.id }
    match mountOutcome scene.id with
    | Except.ok c =>
      if token = st3.mountToken then
        Except.ok { st3 with activeCleanup := some c, rootScene := some scene.id }
      else
        Except.ok { st3 with cleanupsRun := st3.cleanupsRun ++ [c] }
    | Except.error _ =>
      Except.ok
        { st3 with
          consoleErrors := st3.consoleErrors ++ [scene.id]
          rootScene := none }

namespace Selector

/-- Scheduler events for overlapping activations.  `call` runs an
`activateScene` invocation synchronously through token stamping and
`cleanupActiveScene` up to the mount suspension; `resolveOk t c` resumes
the pending call whose token is `t` with a mount result whose cleanup
identity is `c`; `resolveErr t` resumes it with a mount rejection. -/
inductive Ev
  | call (sceneId : String)
  | resolveOk (token : Nat) (cleanupId : Nat)
  | resolveErr (token : Nat)
deriving DecidableEq, Repr

/-- Selector state under overlapping activations.  `pending` holds the
tokens of calls suspended at `await scene.mount(...)`; `installed`
records every (token, cleanup) pair ever written to `activeCleanup`;
`staleCleaned` records every mount result that arrived with a stale token
and was cleaned up immediately instead of installed. -/
structure SelState where
  mountToken : Nat := 0
  activeCleanup : Option Nat := none
  pending : List Nat := []
  installed : List (Nat × Nat) := []
  staleCleaned : List (Nat × Nat) := []
  cleanupsRun : List Nat := []
deriving DecidableEq, Repr

/-- One scheduler event against the selector state, mirroring
`activateScene`: a call stamps `token = ++mountToken` and runs
`cleanupActiveScene` (clearing `activeCleanup` before invoking it); a
resolution with a stale token (`token !== mountToken`) runs the arriving
cleanup at once and installs nothing; a resolution with the current token
installs the cleanup as `activeCleanup`; a rejection is logged by the
catch branch and installs nothing. -/
def step (s : SelState) : Ev → SelState
  | Ev.call _ =>
    { s with
      mountToken := s.mountToken + 1
      pending := s.pending ++ [s.mountToken + 1]
      activeCleanup := none
      cleanupsRun := s.cleanupsRun ++ s.activeCleanup.toList }
  | Ev.resolveOk t c =>
    if t ∈ s.pending then
      let base := { s with pending := s.pending.erase t }
      if t ≠ s.mountToken then
        { base with
          staleCleaned := base.staleCleaned ++ [(t, c)]
          cleanupsRun := base.cleanupsRun ++ [c] }
      else
        { base with
          activeCleanup := some c
          installed := base.installed ++ [(t, c)] }
    else s
  | Ev.resolveErr t =>
    if t ∈ s.pending then { s with pending := s.pending.erase t } else s

/-- Run a scheduler event sequence from a state. -/
def run (s : SelState) (evs : List Ev) : SelState :=
  evs.foldl step s

/-- The initial module state. -/
def init : SelState := {}

end Selector

/-! ## computeBoids scene: cleanup machinery and frame loop

`mountComputeBoidsScene` pushes cleanup closures onto `cleanupCallbacks`
in mount order and returns `async () => { while (cleanupCallbacks.length)
await cleanupCallbacks.pop()?.(); }`.  The closures are named by the
`BoidsCB` constructors; running one updates the scene's observable state
(attached listeners, destroyed GPU resources, the `disposed` flag) and
never touches `cleanupCallbacks`, so the pop-until-empty loop equals a
left fold over the reversed callback list with the list emptied. -/

inductive BoidsCB
  | removeContainer
  | removeResizeListener
  | removeUnloadListener
  | runDispose
deriving DecidableEq, Repr

/-- Observable state of a mounted computeBoids scene instance.  The model
takes the timestamp-query-enabled path (querySet and resolveBuffer
allocated); the claims settled here do not depend on that choice. -/
structure BoidsState where
  disposed : Bool := false
  rafCancelled : Bool := false
  containerAttached : Bool := true
  listeners : List String := ["resize", "beforeunload"]
  destroyedBuffers : List String := []
  spareBuffers : List Nat := []
  destroyedSpareBuffers : List Nat := []
  surfaceDisposed : Bool := false
  hostDisposed : Bool := false
  cleanupCallbacks : List BoidsCB :=
    [BoidsCB.removeContainer, BoidsCB.removeResizeListener,
     BoidsCB.removeUnloadListener, BoidsCB.runDispose]
deriving DecidableEq, Repr

namespace Boids

/-- Mirror of `disposeResources`: guarded by the `disposed` flag; cancels
the frame loop, destroys the scene's buffers and the pooled spare
readback buffers, destroys the query set and resolve buffer, disposes the
surface and the host. -/
def disposeResources (s : BoidsState) : BoidsState :=
  if s.disposed then s
  else
    { s with
      disposed := true
      rafCancelled := true
      destroyedBuffers :=
        s.destroyedBuffers ++
          ["spriteVertexBuffer", "simParamBuffer", "particleBuffer0",
           "particleBuffer1", "querySet", "resolveBuffer"]
      spareBuffers := []
      destroyedSpareBuffers := s.destroyedSpareBuffers ++ s.spareBuffers
      surfaceDisposed := true
      hostDisposed := true }

/-- Run one cleanup closure.  None of the closures touches
`cleanupCallbacks`. -/
def runCB : BoidsCB → BoidsState → BoidsState
  | BoidsCB.removeContainer, s => { s with containerAttached := false }
  | BoidsCB.removeResizeListener, s =>
    { s with listeners := s.listeners.erase "resize" }
  | BoidsCB.removeUnloadListener, s =>
    { s with listeners := s.listeners.erase "beforeunload" }
  | BoidsCB.runDispose, s => disposeResources s

/-- Mirror of the returned cleanup `while (cleanupCallbacks.length) await
cleanupCallbacks.pop()?.()`: drain the array popping from the end (LIFO);
every pop happens before the loop re-checks the length, so the array is
empty afterwards. -/
def runReturnedCleanup (s : BoidsState) : BoidsState :=
  s.cleanupCallbacks.reverse.foldl (fun st cb => runCB cb st)
    { s with cleanupCallbacks := [] }

end Boids

/-! ## transparentCanvas scene: cleanup machinery

`mountTransparentCanvasScene` pushes its closures in mount order and
returns `runAllCleanup`, which splices the whole array out, runs the
spliced copy front to back, then clears the module-level `activeCleanup`
reference.  Its `disposeResources` has no `disposed` guard; idempotence
of `runAllCleanup` rests solely on the splice leaving the array empty. -/

inductive TCCB
  | removeContainer
  | removeResizeListener
  | cancelRaf
  | removeUnloadListener
  | runDispose
deriving DecidableEq, Repr

structure TCState where
  containerAttached : Bool := true
  listeners : List String := ["resize", "beforeunload"]
  rafCancelled : Bool := false
  destroyedBuffers : List String := []
  surfaceDisposed : Bool := false
  hostDisposed : Bool := false
  moduleActiveCleanup : Bool := true
  cleanupCallbacks : List TCCB :=
    [TCCB.removeContainer, TCCB.removeResizeListener, TCCB.cancelRaf,
     TCCB.removeUnloadListener, TCCB.runDispose]
deriving DecidableEq, Repr

namespace TransparentCanvas

/-- Mirror of the transparentCanvas `disposeResources` (no guard flag). -/
def disposeResources (s : TCState) : TCState :=
  { s with
    destroyedBuffers := s.destroyedBuffers ++ ["verticesBuffer", "uniformBuffer"]
    surfaceDisposed := true
    hostDisposed := true }

/-- Run one cleanup closure.  None of the closures touches
`cleanupCallbacks`. -/
def runCB : TCCB → TCState → TCState
  | TCCB.removeContainer, s => { s with containerAttached := false }
  | TCCB.removeResizeListener, s =>
    { s with listeners := s.listeners.erase "resize" }
  | TCCB.cancelRaf, s => { s with rafCancelled := true }
  | TCCB.removeUnloadListener, s =>
    { s with listeners := s.listeners.erase "beforeunload" }
  | TCCB.runDispose, s => disposeResources s

/-- Mirror of `runAllCleanup`: `const callbacks = cleanupCallbacks.splice(0)`
empties the array, the spliced copy is run front to back, then
`activeCleanup = undefined`. -/
def runAllCleanup (s : TCState) : TCState :=
  { s.cleanupCallbacks.foldl (fun st cb => runCB cb st)
      { s with cleanupCallbacks := [] } with
    moduleActiveCleanup := false }

end TransparentCanvas

/-! ## Frame loop bodies (computeBoids, points, transparentCanvas)

Each scene's `frame` callback is modelled as a function from the loop's
observable state to the state after one invocation of the body plus
whether the body issued `requestAnimationFrame(frame)` again.  For the
computeBoids and points scenes `disposed` is the scene's own flag (set by
their `disposeResources`); `cleanupRan` records that the scene's cleanup
has completed, which for those two scenes implies `disposed`.  The
transparentCanvas scene has no disposed flag at all. -/

structure FrameState where
  disposed : Bool := false
  cleanupRan : Bool := false
  frameIndex : Nat := 0
  framesSubmitted : Nat := 0
deriving DecidableEq, Repr

/-- Mirror of the computeBoids `frame`: `if (disposed) return;` at entry,
then encode/submit the passes, bump `frameIndex`, and reschedule with
`rafId = requestAnimationFrame(frame)` as the last statement. -/
def boidsFrame (s : FrameState) : FrameState × Bool :=
  if s.disposed then (s, false)
  else
    ({ s with
        frameIndex := s.frameIndex + 1
        framesSubmitted := s.framesSubmitted + 1 }, true)

/-- Mirror of the points `frame`: `if (disposed) return;` at entry, then
submit and reschedule as the last statement. -/
def pointsFrame (s : FrameState) : FrameState × Bool :=
  if s.disposed then (s, false)
  else ({ s with framesSubmitted := s.framesSubmitted + 1 }, true)

/-- Mirror of the transparentCanvas `frame`: its first statement is
`rafId = requestAnimationFrame(frame)`; it consults no disposed flag and
always submits. -/
def transparentFrame (s : FrameState) : FrameState × Bool :=
  ({ s with framesSubmitted := s.framesSubmitted + 1 }, true)

/-! ## computeBoids timestamp readback continuation

The `.then` continuation registered on `readbackBuffer.mapAsync(...)`,
with the four resolved timestamps passed in as integers.  Aggregate
timing statistics are `computeDurationSum`, `renderDurationSum`,
`timerSamples` and the count of stats-block rewrites. -/

structure ReadbackState where
  disposed : Bool := false
  computeDurationSum : Int := 0
  renderDurationSum : Int := 0
  timerSamples : Nat := 0
  spareBuffers : List Nat := []
  destroyedBuffers : List Nat := []
  statsUpdates : Nat := 0
  unmapped : List Nat := []
deriving DecidableEq, Repr

/-- Mirror of the readback resolve continuation: if the scene was
disposed while the map was in flight, destroy the buffer and return
without touching the statistics; otherwise accumulate the positive
durations, unmap, possibly fold 100 samples into the stats block, and
push the buffer onto the spare pool. -/
def readbackContinuation (s : ReadbackState) (buf : Nat)
    (times : Int × Int × Int × Int) : ReadbackState :=
  if s.disposed then
    { s with destroyedBuffers := s.destroyedBuffers ++ [buf] }
  else
    let computeDuration := times.2.1 - times.1
    let renderDuration := times.2.2.2 - times.2.2.1
    let s1 :=
      if 0 < computeDuration ∧ 0 < renderDuration then
        { s with
          computeDurationSum := s.computeDurationSum + computeDuration
          renderDurationSum := s.renderDurationSum + renderDuration
          timerSamples := s.timerSamples + 1 }
      else s
    let s2 := { s1 with unmapped := s1.unmapped ++ [buf] }
    let s3 :=
      if 100 ≤ s2.timerSamples then
        { s2 with
          statsUpdates := s2.statsUpdates + 1
          computeDurationSum := 0
          renderDurationSum := 0
          timerSamples := 0 }
      else s2
    { s3 with spareBuffers := s3.spareBuffers ++ [buf] }

/-! ## Theorems -/

namespace Registry

lemma runDisposals_ok {α} (reg : Registry α)
    (hok : ∀ e ∈ reg, ∀ cb, e.dispose = some cb → cb.throws = false) :
    runDisposals reg = (disposalOrder reg, false) := by
  induction reg with
  | nil => rfl
  | cons e rest ih =>
    have hrest : ∀ x ∈ rest, ∀ cb, x.dispose = some cb → cb.throws = false :=
      fun x hx => hok x (List.mem_cons_of_mem _ hx)
    cases hd : e.dispose with
    | none =>
      simp [runDisposals, disposalOrder, hd, ih hrest]
    | some cb =>
      have hcb : cb.throws = false := hok e (List.mem_cons_self _ _) cb hd
      simp [runDisposals, disposalOrder, hd, hcb, ih hrest]

lemma runDisposals_abort {α} (pre post : List (TrackedResource α))
    (e : TrackedResource α) (cb : DisposeCallback)
    (hpre : ∀ x ∈ pre, ∀ c, x.dispose = some c → c.throws = false)
    (he : e.dispose = some cb) (ht : cb.throws = true) :
    runDisposals (pre ++ e :: post) = (disposalOrder pre ++ [cb.cid], true) := by
  induction pre with
  | nil => simp [runDisposals, disposalOrder, he, ht]
  | cons x xs ih =>
    have hxs : ∀ y ∈ xs, ∀ c, y.dispose = some c → c.throws = false :=
      fun y hy => hpre y (List.mem_cons_of_mem _ hy)
    cases hd : x.dispose with
    | none => simpa [runDisposals, disposalOrder, hd] using ih hxs
    | some c =>
      have hc : c.throws = false := hpre x (List.mem_cons_self _ _) c hd
      simp [runDisposals, disposalOrder, hd, hc, ih hxs]

end Registry

/-- C4: `disposeAll()` invokes each stored entry's disposal callback (when
present) in insertion order, one after another, and when every callback
completes the table is cleared (`get` returns none for every id); when a
callback throws, the callbacks of all entries after it are not invoked
(the trace over a registry split at the first throwing callback stops at
that callback's id). -/
theorem disposeAll_insertion_order_and_abort {α} (reg : Registry α)
    (hok : ∀ e ∈ reg, ∀ cb, e.dispose = some cb → cb.throws = false) :
    Registry.disposeAll reg = (Registry.disposalOrder reg, false, []) ∧
    (∀ i, Registry.get (Registry.disposeAll reg).2.2 i = none) ∧
    (∀ (pre post : List (TrackedResource α)) (e : TrackedResource α)
        (cb : DisposeCallback),
      (∀ x ∈ pre, ∀ c, x.dispose = some c → c.throws = false) →
      e.dispose = some cb → cb.throws = true →
      (Registry.disposeAll (pre ++ e :: post)).1 =
        Registry.disposalOrder pre ++ [cb.cid]) := by
  refine ⟨?_, ?_, ?_⟩
  · simp [Registry.disposeAll, Registry.runDisposals_ok reg hok]
  · intro i
    simp [Registry.disposeAll, Registry.runDisposals_ok reg hok, Registry.get]
  · intro pre post e cb hpre he ht
    simp [Registry.disposeAll, Registry.runDisposals_abort pre post e cb hpre he ht]

/-- Closed witness for C4: a two-entry registry with callbacks 1 and 2
disposes in insertion order and clears the table, and a registry whose
second callback throws stops the trace right after that callback. -/
theorem disposeAll_insertion_order_and_abort_witness :
    Registry.disposeAll
        ([⟨"a", 0, none, some ⟨1, false⟩⟩, ⟨"b", 1, none, some ⟨2, false⟩⟩] :
          Registry Nat) =
      ([1, 2], false, []) ∧
    (Registry.disposeAll
        (([⟨"a", 0, none, some ⟨1, false⟩⟩] : Registry Nat) ++
          ⟨"b", 1, none, some ⟨2, true⟩⟩ :: [⟨"c", 2, none, some ⟨3, false⟩⟩])).1 =
      Registry.disposalOrder ([⟨"a", 0, none, some ⟨1, false⟩⟩] : Registry Nat) ++ [2] := by
  have h := disposeAll_insertion_order_and_abort
    ([⟨"a", 0, none, some ⟨1, false⟩⟩, ⟨"b", 1, none, some ⟨2, false⟩⟩] : Registry Nat)
    (by decide)
  refine ⟨?_, ?_⟩
  · simpa [Registry.disposalOrder] using h.1
  · exact h.2.2 [⟨"a", 0, none, some ⟨1, false⟩⟩] [⟨"c", 2, none, some ⟨3, false⟩⟩]
      ⟨"b", 1, none, some ⟨2, true⟩⟩ ⟨2, true⟩ (by decide) rfl rfl

/-- C10: when a disposal callback throws during `disposeAll()`, the
exception propagates before `map.clear()` runs, so the table keeps every
entry — including the ones whose callbacks already executed (`get` and
`list` still return them) — and a second `disposeAll()` replays exactly
the same invocation trace, re-invoking callbacks that already ran. -/
theorem disposeAll_throw_keeps_table {α} (reg : Registry α)
    (hthrew : (Registry.disposeAll reg).2.1 = true) :
    (Registry.disposeAll reg).2.2 = reg ∧
    Registry.list (Registry.disposeAll reg).2.2 = Registry.list reg ∧
    (∀ i, Registry.get (Registry.disposeAll reg).2.2 i = Registry.get reg i) ∧
    Registry.disposeAll ((Registry.disposeAll reg).2.2) = Registry.disposeAll reg := by
  have h : (Registry.runDisposals reg).2 = true := by
    simpa [Registry.disposeAll] using hthrew
  refine ⟨?_, ?_, ?_, ?_⟩ <;> simp [Registry.disposeAll, Registry.list, h]

/-- Closed witness for C10: a registry whose first callback throws is left
intact by `disposeAll()`, and a repeat call replays the same trace. -/
theorem disposeAll_throw_keeps_table_witness :
    (Registry.disposeAll ([⟨"a", 0, none, some ⟨1, true⟩⟩,
        ⟨"b", 1, none, some ⟨2, false⟩⟩] : Registry Nat)).2.2 =
      [⟨"a", 0, none, some ⟨1, true⟩⟩, ⟨"b", 1, none, some ⟨2, false⟩⟩] ∧
    Registry.disposeAll
        ((Registry.disposeAll ([⟨"a", 0, none, some ⟨1, true⟩⟩,
            ⟨"b", 1, none, some ⟨2, false⟩⟩] : Registry Nat)).2.2) =
      Registry.disposeAll ([⟨"a", 0, none, some ⟨1, true⟩⟩,
        ⟨"b", 1, none, some ⟨2, false⟩⟩] : Registry Nat) := by
  have h := disposeAll_throw_keeps_table
    ([⟨"a", 0, none, some ⟨1, true⟩⟩, ⟨"b", 1, none, some ⟨2, false⟩⟩] : Registry Nat)
    (by decide)
  exact ⟨h.1, h.2.2.2⟩

namespace Boids

lemma runBoidsCB_cleanupCallbacks (cb : BoidsCB) (s : BoidsState) :
    (runCB cb s).cleanupCallbacks = s.cleanupCallbacks := by
  cases cb <;> simp [runCB, disposeResources]
  split <;> rfl

lemma foldl_runBoidsCB_cleanupCallbacks (cbs : List BoidsCB) (s : BoidsState) :
    (cbs.foldl (fun st cb => runCB cb st) s).cleanupCallbacks =
      s.cleanupCallbacks := by
  induction cbs generalizing s with
  | nil => rfl
  | cons cb rest ih =>
    simpa [List.foldl_cons, runBoidsCB_cleanupCallbacks cb s] using
      ih (runCB cb s)

lemma runReturnedCleanup_of_empty (s : BoidsState)
    (h : s.cleanupCallbacks = []) : runReturnedCleanup s = s := by
  cases s
  simp only at h
  subst h
  rfl

lemma runReturnedCleanup_cleanupCallbacks (s : BoidsState) :
    (runReturnedCleanup s).cleanupCallbacks = [] :=
  foldl_runBoidsCB_cleanupCallbacks s.cleanupCallbacks.reverse
    { s with cleanupCallbacks := [] }

end Boids

namespace TransparentCanvas

lemma runTCCB_cleanupCallbacks (cb : TCCB) (s : TCState) :
    (runCB cb s).cleanupCallbacks = s.cleanupCallbacks := by
  cases cb <;> rfl

lemma foldl_runTCCB_cleanupCallbacks (cbs : List TCCB) (s : TCState) :
    (cbs.foldl (fun st cb => runCB cb st) s).cleanupCallbacks =
      s.cleanupCallbacks := by
  induction cbs generalizing s with
  | nil => rfl
  | cons cb rest ih =>
    simpa [List.foldl_cons, runTCCB_cleanupCallbacks cb s] using
      ih (runCB cb s)

lemma runAllCleanup_of_empty (s : TCState)
    (h : s.cleanupCallbacks = []) (hm : s.moduleActiveCleanup = false) :
    runAllCleanup s = s := by
  cases s
  simp only at h hm
  subst h
  subst hm
  rfl

lemma runAllCleanup_cleanupCallbacks (s : TCState) :
    (runAllCleanup s).cleanupCallbacks = [] :=
  foldl_runTCCB_cleanupCallbacks s.cleanupCallbacks { s with cleanupCallbacks := [] }

lemma runAllCleanup_moduleActiveCleanup (s : TCState) :
    (runAllCleanup s).moduleActiveCleanup = false := by
  simp [runAllCleanup]

end TransparentCanvas

/-- C6: the cleanup callback a scene's mount returns is idempotent.  The
computeBoids cleanup drains `cleanupCallbacks` by popping until empty, so
a second invocation finds the array empty and changes nothing (no
listener removed twice, no GPU destroy called twice); the
transparentCanvas `runAllCleanup` splices the array out before running
it, so a second invocation likewise changes nothing.  Both are total
functions of the state, so neither invocation throws. -/
theorem cleanup_idempotent :
    (∀ s : BoidsState,
      Boids.runReturnedCleanup (Boids.runReturnedCleanup s) =
        Boids.runReturnedCleanup s) ∧
    (∀ s : TCState,
      TransparentCanvas.runAllCleanup (TransparentCanvas.runAllCleanup s) =
        TransparentCanvas.runAllCleanup s) := by
  constructor
  · intro s
    exact Boids.runReturnedCleanup_of_empty _
      (Boids.runReturnedCleanup_cleanupCallbacks s)
  · intro s
    exact TransparentCanvas.runAllCleanup_of_empty _
      (TransparentCanvas.runAllCleanup_cleanupCallbacks s)
      (TransparentCanvas.runAllCleanup_moduleActiveCleanup s)

/-- C9: the readback resolve continuation for a disposed scene destroys
the backing buffer and leaves every aggregate timing statistic and the
spare pool untouched; for a live scene it returns the buffer to the spare
pool and destroys nothing. -/
theorem readback_disposed_discards (s : ReadbackState) (buf : Nat)
    (times : Int × Int × Int × Int) :
    (s.disposed = true →
      readbackContinuation s buf times =
        { s with destroyedBuffers := s.destroyedBuffers ++ [buf] }) ∧
    (s.disposed = false →
      (readbackContinuation s buf times).spareBuffers = s.spareBuffers ++ [buf] ∧
      (readbackContinuation s buf times).destroyedBuffers = s.destroyedBuffers) := by
  constructor
  · intro h
    simp [readbackContinuation, h]
  · intro h
    simp only [readbackContinuation, h, Bool.false_eq_true, if_false]
    constructor <;> split <;> split <;> simp

/-- Closed witness for C9: on a disposed scene the continuation for
buffer 7 destroys it and keeps the statistics at their old values; on a
live scene with positive durations the buffer returns to the pool. -/
theorem readback_disposed_discards_witness :
    readbackContinuation { disposed := true, timerSamples := 5 } 7 (0, 3, 10, 14) =
      { disposed := true, timerSamples := 5, destroyedBuffers := [7] } ∧
    (readbackContinuation { disposed := false } 7 (0, 3, 10, 14)).spareBuffers = [7] ∧
    (readbackContinuation { disposed := false } 7 (0, 3, 10, 14)).destroyedBuffers = [] := by
  refine ⟨?_, ?_⟩
  · exact (readback_disposed_discards { disposed := true, timerSamples := 5 } 7
      (0, 3, 10, 14)).1 rfl
  · exact (readback_disposed_discards { disposed := false } 7 (0, 3, 10, 14)).2 rfl

/-- C8 counterexample: the transparentCanvas frame callback issues
`requestAnimationFrame` as its first statement and consults no disposed
flag, so on a state whose scene has been disposed (cleanup completed) the
body still schedules another iteration — refuting the claim that every
scene's frame callback checks a disposed flag at entry and stops
scheduling once disposed. -/
theorem transparent_frame_schedules_after_dispose :
    (transparentFrame { disposed := true, cleanupRan := true }).2 = true ∧
    ¬ ((transparentFrame { disposed := true, cleanupRan := true }).2 = false) := by
  exact ⟨rfl, by decide⟩

/-- C8 (amended): the computeBoids and points frame callbacks check the
scene's disposed flag at entry and, once disposed, return unchanged
without scheduling another iteration; the transparentCanvas frame
callback schedules the next iteration unconditionally as its first
statement (cancellation for that scene relies solely on
`cancelAnimationFrame` of the recorded handle). -/
theorem frame_disposed_check (s : FrameState) :
    (s.disposed = true → boidsFrame s = (s, false) ∧ pointsFrame s = (s, false)) ∧
    (transparentFrame s).2 = true := by
  constructor
  · intro h
    constructor <;> simp [boidsFrame, pointsFrame, h]
  · rfl

/-- Closed witness for C8 (amended): a disposed computeBoids/points frame
state is returned unchanged with no reschedule. -/
theorem frame_disposed_check_witness :
    boidsFrame { disposed := true, frameIndex := 3 } =
      ({ disposed := true, frameIndex := 3 }, false) ∧
    pointsFrame { disposed := true, frameIndex := 3 } =
      ({ disposed := true, frameIndex := 3 }, false) :=
  (frame_disposed_check { disposed := true, frameIndex := 3 }).1 rfl

/-- C2 counterexample: with `onError` supplied and the adapter stage
failing (API present, `requestAdapter` returning null), `init` throws
`AdapterUnavailable` without delivering any error to `onError` — the
reported-error trace is empty, refuting the claim that both acquisition
failure kinds are reported to `onError`. -/
theorem init_adapter_failure_not_reported :
    DeviceHost.init
        { gpuAvailable := true, adapterAvailable := false, deviceRequestFails := false }
        { onErrorProvided := true } =
      ([], Except.error InitError.adapterUnavailable) := by
  rfl

/-- C2 (amended): with `onError` supplied, a device-negotiation failure is
reported to `onError` exactly once and then surfaced as a thrown error
(the report precedes the propagation in the catch branch); the
adapter-stage failures (API absent or no adapter) are surfaced only as a
thrown error, with no `onError` report, because they are thrown before
the try/catch that performs the reporting. -/
theorem init_error_reporting (env : GpuEnvModel) (opts : DeviceHostOptions)
    (hon : opts.onErrorProvided = true) :
    (env.gpuAvailable = true → env.adapterAvailable = true →
      env.deviceRequestFails = true →
      DeviceHost.init env opts =
        ([InitError.deviceRequestFailed],
          Except.error InitError.deviceRequestFailed)) ∧
    (env.gpuAvailable = false →
      DeviceHost.init env opts = ([], Except.error InitError.webgpuUnavailable)) ∧
    (env.gpuAvailable = true → env.adapterAvailable = false →
      DeviceHost.init env opts = ([], Except.error InitError.adapterUnavailable)) := by
  refine ⟨?_, ?_, ?_⟩
  · intro h1 h2 h3
    simp [DeviceHost.init, h1, h2, h3, hon]
  · intro h1
    simp [DeviceHost.init, h1]
  · intro h1 h2
    simp [DeviceHost.init, h1, h2]

/-- Closed witness for C2 (amended): a failing device negotiation with
`onError` supplied reports exactly one `DeviceRequestFailed` and throws
it; a missing API throws without reporting. -/
theorem init_error_reporting_witness :
    DeviceHost.init
        { gpuAvailable := true, adapterAvailable := true, deviceRequestFails := true }
        { onErrorProvided := true } =
      ([InitError.deviceRequestFailed], Except.error InitError.deviceRequestFailed) ∧
    DeviceHost.init
        { gpuAvailable := false, adapterAvailable := false, deviceRequestFails := false }
        { onErrorProvided := true } =
      ([], Except.error InitError.webgpuUnavailable) := by
  constructor
  · exact (init_error_reporting
      { gpuAvailable := true, adapterAvailable := true, deviceRequestFails := true }
      { onErrorProvided := true } rfl).1 rfl rfl rfl
  · exact (init_error_reporting
      { gpuAvailable := false, adapterAvailable := false, deviceRequestFails := false }
      { onErrorProvided := true } rfl).2.1 rfl

/-- C1 counterexample: a configured surface with a depth format, resized
twice in an unchanged environment, ends with the same backing size both
times yet a different depth-texture identity after each `resize()` — the
depth texture is destroyed and reallocated unconditionally, refuting the
claim that its identity changes only when the computed size changes. -/
theorem resize_same_size_reallocates_depth :
    (CanvasSurfaceManager.resize
        (CanvasSurfaceManager.resize
          (CanvasSurfaceManager.configure {}
            { device := 0, canvas := 0, depthFormat := some "depth24plus" }
            ⟨1, fun _ => (100, 50)⟩)
          ⟨1, fun _ => (100, 50)⟩)
        ⟨1, fun _ => (100, 50)⟩).currentSize =
      (CanvasSurfaceManager.resize
        (CanvasSurfaceManager.configure {}
          { device := 0, canvas := 0, depthFormat := some "depth24plus" }
          ⟨1, fun _ => (100, 50)⟩)
        ⟨1, fun _ => (100, 50)⟩).currentSize ∧
    (CanvasSurfaceManager.resize
        (CanvasSurfaceManager.configure {}
          { device := 0, canvas := 0, depthFormat := some "depth24plus" }
          ⟨1, fun _ => (100, 50)⟩)
        ⟨1, fun _ => (100, 50)⟩).depthTexture = some 1 ∧
    (CanvasSurfaceManager.resize
        (CanvasSurfaceManager.resize
          (CanvasSurfaceManager.configure {}
            { device := 0, canvas := 0, depthFormat := some "depth24plus" }
            ⟨1, fun _ => (100, 50)⟩)
          ⟨1, fun _ => (100, 50)⟩)
        ⟨1, fun _ => (100, 50)⟩).depthTexture = some 2 := by
  refine ⟨rfl, rfl, rfl⟩

/-- C1 (amended): the presentation format recorded at configure-time is
unchanged by `resize()`; but on a surface configured with a depth format,
every `resize()` call destroys the current depth texture and allocates a
fresh one, even when the computed backing size is unchanged — the depth
texture never survives a `resize()`. -/
theorem resize_format_fixed_depth_reallocated (s : CanvasSurfaceManager)
    (env : SurfaceEnv) (cfg : SurfaceManagerConfig) (ctx : Nat)
    (hc : s.config = some cfg) (hx : s.context = some ctx)
    (hd : s.internalDepthFormat ≠ none) (hwf : s.wellAllocated) :
    (CanvasSurfaceManager.resize s env).internalFormat = s.internalFormat ∧
    (CanvasSurfaceManager.resize s env).depthTexture = some s.nextTextureId ∧
    (∀ t, s.depthTexture = some t →
      (CanvasSurfaceManager.resize s env).depthTexture ≠ some t ∧
      t ∈ (CanvasSurfaceManager.resize s env).destroyed) := by
  obtain ⟨oc, octx, dt, cs, fmt, idf, nid, des, cw, ch⟩ := s
  dsimp only at hc hx hd hwf ⊢
  subst hc
  subst hx
  cases idf with
  | none => exact absurd rfl hd
  | some df =>
    refine ⟨rfl, rfl, ?_⟩
    intro t ht
    have hlt : t < nid := hwf t ht
    subst ht
    constructor
    · dsimp [CanvasSurfaceManager.resize]
      simp only [Option.some.injEq]
      omega
    · simp [CanvasSurfaceManager.resize]

/-- Closed witness for C1 (amended): on a concrete configured surface
holding depth texture 0 with the counter at 1, a resize keeps the format
and replaces texture 0 by texture 1, destroying 0. -/
theorem resize_format_fixed_depth_reallocated_witness :
    (CanvasSurfaceManager.resize
        { config := some { device := 0, canvas := 0, depthFormat := some "depth24plus" }
          context := some 0
          depthTexture := some 0
          currentSize := some ⟨100, 50, 1⟩
          internalDepthFormat := some "depth24plus"
          nextTextureId := 1
          canvasWidth := 100
          canvasHeight := 50 }
        ⟨1, fun _ => (100, 50)⟩).internalFormat = preferredCanvasFormat ∧
    (CanvasSurfaceManager.resize
        { config := some { device := 0, canvas := 0, depthFormat := some "depth24plus" }
          context := some 0
          depthTexture := some 0
          currentSize := some ⟨100, 50, 1⟩
          internalDepthFormat := some "depth24plus"
          nextTextureId := 1
          canvasWidth := 100
          canvasHeight := 50 }
        ⟨1, fun _ => (100, 50)⟩).depthTexture = some 1 ∧
    (0 : Nat) ∈ (CanvasSurfaceManager.resize
        { config := some { device := 0, canvas := 0, depthFormat := some "depth24plus" }
          context := some 0
          depthTexture := some 0
          currentSize := some ⟨100, 50, 1⟩
          internalDepthFormat := some "depth24plus"
          nextTextureId := 1
          canvasWidth := 100
          canvasHeight := 50 }
        ⟨1, fun _ => (100, 50)⟩).destroyed := by
  have h := resize_format_fixed_depth_reallocated
    { config := some { device := 0, canvas := 0, depthFormat := some "depth24plus" }
      context := some 0
      depthTexture := some 0
      currentSize := some ⟨100, 50, 1⟩
      internalDepthFormat := some "depth24plus"
      nextTextureId := 1
      canvasWidth := 100
      canvasHeight := 50 }
    ⟨1, fun _ => (100, 50)⟩
    { device := 0, canvas := 0, depthFormat := some "depth24plus" } 0
    rfl rfl (by simp)
    (by intro t ht; dsimp only at ht ⊢; simp only [Option.some.injEq] at ht; omega)
  exact ⟨h.1, h.2.1, (h.2.2 0 rfl).2⟩

/-- C5 counterexample: `DeviceHost.init({})` records no canvas, so the
host it resolves with rejects `configureSurface` with the
missing-canvas-target error instead of yielding a configured 600×300
surface — the end-to-end scenario as claimed fails at the
`configureSurface` step. -/
theorem init_without_canvas_cannot_configure :
    (DeviceHost.init
        { gpuAvailable := true, adapterAvailable := true, deviceRequestFails := false }
        {}).2 = Except.ok { deviceId := 0, options := {} } ∧
    DeviceHost.configureSurface { deviceId := 0, options := {} } {}
        ⟨2, fun _ => (300, 150)⟩ =
      Except.error "DeviceHost options.canvas is required to configure a surface." := by
  exact ⟨rfl, rfl⟩

/-- C5 (amended): `resize()` computes the backing size as
`max(1, floor(logical × dpr))` per axis, the logical size coming from
`sizeProvider()` when supplied and from the canvas client size otherwise,
so both backing dimensions are at least 1 for every logical size and
every device-pixel-ratio; and the end-to-end scenario holds once the
canvas is supplied at init time: `init({canvas})` followed by
`configureSurface` on a 300×150-client-pixel canvas at device-pixel-ratio
2 yields a 600×300 backing buffer (with `init({})`, `configureSurface`
instead fails with the missing-canvas-target error). -/
theorem resize_floor_and_configured_backing (s : CanvasSurfaceManager)
    (env : SurfaceEnv) (cfg : SurfaceManagerConfig) (ctx : Nat)
    (hc : s.config = some cfg) (hx : s.context = some ctx) :
    ((CanvasSurfaceManager.resize s env).currentSize =
      some ⟨max 1 ⌊(CanvasSurfaceManager.logicalSize cfg env).1 *
              (if env.devicePixelRatio = 0 then 1 else env.devicePixelRatio)⌋,
            max 1 ⌊(CanvasSurfaceManager.logicalSize cfg env).2 *
              (if env.devicePixelRatio = 0 then 1 else env.devicePixelRatio)⌋,
            (if env.devicePixelRatio = 0 then 1 else env.devicePixelRatio)⟩) ∧
    (∀ sz, (CanvasSurfaceManager.resize s env).currentSize = some sz →
      1 ≤ sz.width ∧ 1 ≤ sz.height) ∧
    (∃ host, (DeviceHost.init
        { gpuAvailable := true, adapterAvailable := true, deviceRequestFails := false }
        { canvas := some 7 }).2 = Except.ok host ∧
      ∃ s2, DeviceHost.configureSurface host {} ⟨2, fun _ => (300, 150)⟩ =
          Except.ok s2 ∧
        s2.currentSize = some ⟨600, 300, 2⟩ ∧
        s2.canvasWidth = 600 ∧ s2.canvasHeight = 300) := by
  have hsize :
      (CanvasSurfaceManager.resize s env).currentSize =
        some ⟨max 1 ⌊(CanvasSurfaceManager.logicalSize cfg env).1 *
                (if env.devicePixelRatio = 0 then 1 else env.devicePixelRatio)⌋,
              max 1 ⌊(CanvasSurfaceManager.logicalSize cfg env).2 *
                (if env.devicePixelRatio = 0 then 1 else env.devicePixelRatio)⌋,
              (if env.devicePixelRatio = 0 then 1 else env.devicePixelRatio)⟩ := by
    obtain ⟨oc, octx, dt, cs, fmt, idf, nid, des, cw, ch⟩ := s
    dsimp only at hc hx
    subst hc
    subst hx
    cases idf <;> rfl
  refine ⟨hsize, ?_, ?_⟩
  · intro sz hsz
    rw [hsize] at hsz
    cases hsz
    exact ⟨le_max_left 1 _, le_max_left 1 _⟩
  · refine ⟨{ deviceId := 0, options := { canvas := some 7 } }, rfl,
      CanvasSurfaceManager.configure {}
        { device := 0, canvas := 7, format := none, depthFormat := none,
          sizeProvider := none }
        ⟨2, fun _ => (300, 150)⟩, rfl, ?_, ?_, ?_⟩ <;>
      norm_num [CanvasSurfaceManager.configure, CanvasSurfaceManager.resize,
        CanvasSurfaceManager.logicalSize]

/-- Closed witness for C5 (amended): a configured surface with client
size (-5)×0 at device-pixel-ratio 1 still resizes to a backing size of at
least 1×1 in both axes. -/
theorem resize_floor_and_configured_backing_witness :
    ∃ sz, (CanvasSurfaceManager.resize
        { config := some { device := 0, canvas := 3 }
          context := some 3 }
        ⟨1, fun _ => (-5, 0)⟩).currentSize = some sz ∧
      1 ≤ sz.width ∧ 1 ≤ sz.height := by
  have h := resize_floor_and_configured_backing
    { config := some { device := 0, canvas := 3 }, context := some 3 }
    ⟨1, fun _ => (-5, 0)⟩ { device := 0, canvas := 3 } 3 rfl rfl
  exact ⟨_, h.1, h.2.1 _ h.1⟩

/-- C7 counterexample: when the requested id resolves but its mount
rejects, `activateScene` does not fall back to the default scene — the
catch branch logs a console diagnostic and empties the content root,
leaving no scene mounted and no cleanup installed (here scene `boom`
exists alongside default `msdf-text`, whose mount would have
succeeded). -/
theorem mount_failure_no_fallback :
    activateSceneOnce [⟨"msdf-text"⟩, ⟨"boom"⟩] "msdf-text"
        (fun i => if i = "boom" then Except.error () else Except.ok 5) {} "boom" =
      Except.ok
        { mountToken := 1, activeCleanup := none, activeSceneId := "boom",
          rootScene := none, consoleErrors := ["boom"], cleanupsRun := [] } := by
  rfl

/-- C7 (amended): the fallback to the default scene happens when the
requested scene id does not resolve in the registry (before any mount is
attempted); when a resolved scene's mount fails, the failure is reported
via a console diagnostic and the content root is left empty, with no
partially constructed scene remaining and no cleanup installed as
active. -/
theorem activate_fallback_and_mount_failure (scenes : List SceneDef)
    (defaultId : String) (mo : String → Except Unit Nat) (st : HostState)
    (i : String) :
    (getSceneById scenes i = none → getSceneById scenes defaultId = none →
      activateSceneOnce scenes defaultId mo st i =
        Except.error "Unable to resolve scene for id") ∧
    (∀ d, getSceneById scenes i = none → getSceneById scenes defaultId = some d →
      ∃ st2, activateSceneOnce scenes defaultId mo st i = Except.ok st2 ∧
        st2.activeSceneId = d.id) ∧
    (∀ scene, getSceneById scenes i = some scene → mo scene.id = Except.error () →
      activateSceneOnce scenes defaultId mo st i =
        Except.ok
          { mountToken := st.mountToken + 1
            activeCleanup := none
            activeSceneId := scene.id
            rootScene := none
            consoleErrors := st.consoleErrors ++ [scene.id]
            cleanupsRun := st.cleanupsRun ++ st.activeCleanup.toList }) := by
  refine ⟨?_, ?_, ?_⟩
  · intro h1 h2
    simp [activateSceneOnce, h1, h2]
  · intro d h1 h2
    simp only [activateSceneOnce, h1, h2]
    cases mo d.id with
    | ok c => exact ⟨_, rfl, rfl⟩
    | error e => exact ⟨_, rfl, rfl⟩
  · intro scene h1 h2
    simp [activateSceneOnce, h1, h2]

/-- Closed witness for C7 (amended): an unknown id falls back to the
default scene, and a failing mount of a resolved id logs the diagnostic
and leaves the root empty with no cleanup installed. -/
theorem activate_fallback_and_mount_failure_witness :
    (∃ st2, activateSceneOnce [⟨"msdf-text"⟩] "msdf-text"
        (fun _ => Except.ok 5) {} "unknown-id" = Except.ok st2 ∧
      st2.activeSceneId = "msdf-text") ∧
    activateSceneOnce [⟨"msdf-text"⟩, ⟨"boom2"⟩] "msdf-text"
        (fun i => if i = "boom2" then Except.error () else Except.ok 5) {} "boom2" =
      Except.ok
        { mountToken := 1, activeCleanup := none, activeSceneId := "boom2",
          rootScene := none, consoleErrors := ["boom2"], cleanupsRun := [] } := by
  constructor
  · exact (activate_fallback_and_mount_failure [⟨"msdf-text"⟩] "msdf-text"
      (fun _ => Except.ok 5) {} "unknown-id").2.1 ⟨"msdf-text"⟩ rfl rfl
  · exact (activate_fallback_and_mount_failure [⟨"msdf-text"⟩, ⟨"boom2"⟩] "msdf-text"
      (fun i => if i = "boom2" then Except.error () else Except.ok 5) {} "boom2").2.2
      ⟨"boom2"⟩ rfl rfl

namespace Selector

lemma step_call_mountToken (s : SelState) (i : String) :
    (step s (Ev.call i)).mountToken = s.mountToken + 1 := rfl

lemma step_resolveOk_mountToken (s : SelState) (t c : Nat) :
    (step s (Ev.resolveOk t c)).mountToken = s.mountToken := by
  simp only [step]
  split
  · split <;> rfl
  · rfl

lemma step_resolveErr_mountToken (s : SelState) (t : Nat) :
    (step s (Ev.resolveErr t)).mountToken = s.mountToken := by
  simp only [step]
  split <;> rfl

lemma step_mountToken_le (s : SelState) (e : Ev) :
    s.mountToken ≤ (step s e).mountToken := by
  cases e with
  | call i => rw [step_call_mountToken]; exact Nat.le_succ _
  | resolveOk t c => rw [step_resolveOk_mountToken]
  | resolveErr t => rw [step_resolveErr_mountToken]

lemma foldl_mountToken_le (evs : List Ev) (s : SelState) :
    s.mountToken ≤ (evs.foldl step s).mountToken := by
  induction evs generalizing s with
  | nil => exact Nat.le_refl _
  | cons e rest ih =>
    exact Nat.le_trans (step_mountToken_le s e) (ih (step s e))

lemma run_append (s : SelState) (xs ys : List Ev) :
    run s (xs ++ ys) = run (run s xs) ys := by
  simp [run, List.foldl_append]

end Selector

/-- C3: for overlapping `activateScene` calls, at most one scene is ever
installed as active.  A mount result arriving with a stale token (any
token other than the current `mountToken`) is cleaned up immediately and
installs nothing, installation (a change of `installed`) happens only for
the request holding the current token, and once a second call is issued
the first call's token is strictly below `mountToken` forever after — so
the older request's mount result, once resolved, is discarded rather than
installed. -/
theorem activation_token_guard :
    (∀ (s : Selector.SelState) (t c : Nat),
      (Selector.step s (Selector.Ev.resolveOk t c)).installed ≠ s.installed →
      t = s.mountToken) ∧
    (∀ (s : Selector.SelState) (t c : Nat), t ≠ s.mountToken →
      (Selector.step s (Selector.Ev.resolveOk t c)).activeCleanup = s.activeCleanup ∧
      (Selector.step s (Selector.Ev.resolveOk t c)).installed = s.installed ∧
      (t ∈ s.pending →
        (t, c) ∈ (Selector.step s (Selector.Ev.resolveOk t c)).staleCleaned ∧
        c ∈ (Selector.step s (Selector.Ev.resolveOk t c)).cleanupsRun)) ∧
    (∀ (pre mid : List Selector.Ev) (a b : String),
      (Selector.run Selector.init (pre ++ [Selector.Ev.call a])).mountToken <
      (Selector.run Selector.init
        (pre ++ [Selector.Ev.call a, Selector.Ev.call b] ++ mid)).mountToken) := by
  refine ⟨?_, ?_, ?_⟩
  · intro s t c hne
    by_cases hmem : t ∈ s.pending
    · by_cases ht : t = s.mountToken
      · exact ht
      · exfalso
        apply hne
        simp only [Selector.step, if_pos hmem, if_pos ht]
    · exfalso
      apply hne
      simp only [Selector.step, if_neg hmem]
  · intro s t c ht
    by_cases hmem : t ∈ s.pending
    · refine ⟨?_, ?_, ?_⟩
      · simp only [Selector.step, if_pos hmem, if_pos ht]
      · simp only [Selector.step, if_pos hmem, if_pos ht]
      · intro _
        constructor
        · simp only [Selector.step, if_pos hmem, if_pos ht]
          exact List.mem_append_right _ (List.mem_singleton.mpr rfl)
        · simp only [Selector.step, if_pos hmem, if_pos ht]
          exact List.mem_append_right _ (List.mem_singleton.mpr rfl)
    · exact ⟨by simp only [Selector.step, if_neg hmem],
        by simp only [Selector.step, if_neg hmem],
        fun hmem2 => absurd hmem2 hmem⟩
  · intro pre mid a b
    have h1 : Selector.run Selector.init (pre ++ [Selector.Ev.call a]) =
        Selector.step (Selector.run Selector.init pre) (Selector.Ev.call a) := by
      rw [Selector.run_append]
      rfl
    have h2 : Selector.run Selector.init
        (pre ++ [Selector.Ev.call a, Selector.Ev.call b] ++ mid) =
        Selector.run
          (Selector.step
            (Selector.step (Selector.run Selector.init pre) (Selector.Ev.call a))
            (Selector.Ev.call b)) mid := by
      rw [Selector.run_append, Selector.run_append]
      rfl
    rw [h1, h2]
    calc (Selector.step (Selector.run Selector.init pre)
            (Selector.Ev.call a)).mountToken
        < (Selector.step
            (Selector.step (Selector.run Selector.init pre) (Selector.Ev.call a))
            (Selector.Ev.call b)).mountToken := by
          rw [Selector.step_call_mountToken, Selector.step_call_mountToken,
            Selector.step_call_mountToken]
          exact Nat.lt_succ_self _
      _ ≤ (Selector.run
            (Selector.step
              (Selector.step (Selector.run Selector.init pre) (Selector.Ev.call a))
              (Selector.Ev.call b)) mid).mountToken :=
          Selector.foldl_mountToken_le mid _

/-- Closed witness for C3: in the two-call scenario (call `a`, then call
`b` before `a` resolves), `a`'s token 1 is stale against `mountToken` 2,
so its arriving mount result is cleaned immediately, installs nothing and
leaves `activeCleanup` untouched; and the token strict increase holds on
the empty-context instance. -/
theorem activation_token_guard_witness :
    (Selector.step { mountToken := 2, pending := [1] }
        (Selector.Ev.resolveOk 1 9)).activeCleanup = none ∧
    (Selector.step { mountToken := 2, pending := [1] }
        (Selector.Ev.resolveOk 1 9)).installed = [] ∧
    (1, 9) ∈ (Selector.step { mountToken := 2, pending := [1] }
        (Selector.Ev.resolveOk 1 9)).staleCleaned ∧
    (Selector.run Selector.init ([] ++ [Selector.Ev.call "a"])).mountToken <
      (Selector.run Selector.init
        ([] ++ [Selector.Ev.call "a", Selector.Ev.call "b"] ++ [])).mountToken := by
  have h := activation_token_guard
  have h2 := h.2.1 { mountToken := 2, pending := [1] } 1 9 (by decide)
  exact ⟨h2.1, h2.2.1, (h2.2.2 (by decide)).1, h.2.2 [] [] "a" "b"⟩

end MiniGfx
